import Mathlib

/-!
Shallow embedding of the asynchronous export engine in
gitlab_async_tui_exporter.py: retry/backoff decorator, per-project
export state machine, resumable download, paginated project fetch,
semaphore-bounded concurrency, and the run_export driver.
-/

namespace Gitsport

/-- ExportStats dataclass (source lines 77 to 96); only the fields the
claims use are modelled. All counters start at 0 as in the dataclass. -/
structure ExportStats where
  projects_exported : Nat := 0
  projects_failed : Nat := 0
  retries : Nat := 0
  total_size : Nat := 0
deriving DecidableEq, Repr

/-- success_rate property (lines 93 to 96): exported / total * 100 when
total is positive, else 0. Real division is modelled on the rationals. -/
def ExportStats.success_rate (s : ExportStats) : ℚ :=
  let total := s.projects_exported + s.projects_failed
  if 0 < total then (s.projects_exported : ℚ) / (total : ℚ) * 100 else 0

/-- A project record; only the fields read by export_project. -/
structure Project where
  id : Nat
  path_with_namespace : String
deriving DecidableEq, Repr

/-- Exporter state mutated by export_project: the stats counters and the
failed_projects list (lines 107 to 108). -/
structure ExporterState where
  stats : ExportStats
  failed_projects : List Project
deriving DecidableEq, Repr

/-- Initial exporter state: zeroed stats and an empty failed list. -/
def initialState : ExporterState := { stats := {}, failed_projects := [] }

/-- Outcome of one invocation of the wrapped callable inside
async_retry_with_backoff: a normal return, or a raised
ClientResponseError carrying an HTTP status. -/
inductive AttemptOutcome (α : Type) where
  | success (value : α)
  | httpError (status : Nat)
deriving DecidableEq, Repr

/-- Result surfaced by the retry wrapper: a returned value, or a
re-raised error with its HTTP status (a 429 after the retry budget is
spent, or any non-429 immediately). -/
inductive RetryResult (α : Type) where
  | ok (value : α)
  | raised (status : Nat)
deriving DecidableEq, Repr

/-- Observable trace of one run of the retry wrapper: the surfaced
result, how many times the wrapped callable was invoked, the sleep
delays in order, and how many times stats.retries was incremented. -/
structure RetryTrace (α : Type) where
  result : RetryResult α
  attempts : Nat
  delays : List ℚ
  retriesIncr : Nat
deriving DecidableEq, Repr

/-- Loop body of async_retry_with_backoff (lines 44 to 60). x is the
Python retry counter; rem is the remaining retry budget retries - x, so
the Python guard x < retries is rem > 0. outcome n gives what the
wrapped callable does on its n-th invocation (0-based; the callable is
always invoked with x = n). The sleep before retry x is
backoff_in_seconds * 2 ^ x + random.random(), modelled by the jitter
function. -/
def retryGo (base : ℚ) (jitter : Nat → ℚ) (outcome : Nat → AttemptOutcome α) :
    Nat → Nat → RetryTrace α
  | x, 0 =>
    match outcome x with
    | .success v => { result := .ok v, attempts := 1, delays := [], retriesIncr := 0 }
    | .httpError s => { result := .raised s, attempts := 1, delays := [], retriesIncr := 0 }
  | x, rem + 1 =>
    match outcome x with
    | .success v => { result := .ok v, attempts := 1, delays := [], retriesIncr := 0 }
    | .httpError s =>
      if s = 429 then
        let rest := retryGo base jitter outcome (x + 1) rem
        { result := rest.result, attempts := rest.attempts + 1,
          delays := (base * 2 ^ x + jitter x) :: rest.delays,
          retriesIncr := rest.retriesIncr + 1 }
      else { result := .raised s, attempts := 1, delays := [], retriesIncr := 0 }

/-- async_retry_with_backoff (lines 39 to 62): run the wrapped callable
starting with retry counter x = 0 and the full retry budget. The source
defaults are retries = 5 and backoff_in_seconds = 1. -/
def async_retry_with_backoff (retries : Nat) (base : ℚ) (jitter : Nat → ℚ)
    (outcome : Nat → AttemptOutcome α) : RetryTrace α :=
  retryGo base jitter outcome 0 retries

/-- One poll response in the export status loop (lines 271 to 278):
its HTTP status and the export_status field of its JSON body. -/
structure PollResponse where
  status : Nat
  export_status : String
deriving DecidableEq, Repr

/-- Terminal result of the poll loop. -/
inductive PollResult where
  | finished
  | pollFailed
  | timedOut
deriving DecidableEq, Repr

/-- Poll loop of export_project (lines 266 to 298). polls n is the
response to the n-th status GET. Each iteration of the Python
for-loop over range(max_attempts) issues one GET; a non-200 response
hits continue, a 200 response dispatches on export_status, and any
non-terminal case falls through to the next iteration. Returns the
terminal result together with the number of polls issued. The second
component counts iterations consumed from the attempt budget. -/
def pollLoop (polls : Nat → PollResponse) : Nat → Nat → PollResult × Nat
  | _, 0 => (.timedOut, 0)
  | attempt, remaining + 1 =>
    let r := polls attempt
    if r.status ≠ 200 then
      let rest := pollLoop polls (attempt + 1) remaining
      (rest.1, rest.2 + 1)
    else if r.export_status = "finished" then (.finished, 1)
    else if r.export_status = "failed" then (.pollFailed, 1)
    else
      let rest := pollLoop polls (attempt + 1) remaining
      (rest.1, rest.2 + 1)

/-- max_attempts = 120 (line 267). -/
def max_attempts : Nat := 120

/-- A poll response that moves the loop to no terminal sub-state:
either its HTTP status is not 200, or its export_status is neither
finished nor failed. -/
def nonTerminalPoll (r : PollResponse) : Prop :=
  r.status ≠ 200 ∨ (r.export_status ≠ "finished" ∧ r.export_status ≠ "failed")

/-- Modelled from the spec: the poll loop as the claim reads it, in
which a non-200 response is skipped without consuming any of the
120-attempt budget. The extra fuel argument only keeps the model total;
it is spent on every iteration, while budget is spent solely on
200-status polls. -/
def pollLoopNoBudget (polls : Nat → PollResponse) : Nat → Nat → Nat → PollResult
  | _, _, 0 => .timedOut
  | _, 0, _ + 1 => .timedOut
  | attempt, budget + 1, fuel + 1 =>
    let r := polls attempt
    if r.status ≠ 200 then pollLoopNoBudget polls (attempt + 1) (budget + 1) fuel
    else if r.export_status = "finished" then .finished
    else if r.export_status = "failed" then .pollFailed
    else pollLoopNoBudget polls (attempt + 1) budget fuel

/-- Environment of one export_project run: whether the target file
already exists, the outcome of the trigger POST (none models a raised
network exception, some s an HTTP response with status s), the poll
responses, and whether download_export succeeds. -/
structure ExportEnv where
  fileExists : Bool
  trigger : Option Nat
  polls : Nat → PollResponse
  downloadOk : Bool

/-- Terminal outcome of one export_project run. -/
inductive ExportOutcome where
  | alreadyExported
  | done
  | triggerFailed
  | excFailed
  | exportFailed
  | timedOut
  | downloadFailed
deriving DecidableEq, Repr

/-- Observable result of one export_project run: its boolean return
value, the terminal outcome, the updated exporter state, the number of
HTTP requests issued, and whether download_export was invoked (the only
step that touches the target file). -/
structure ExportResult where
  returnValue : Bool
  outcome : ExportOutcome
  state : ExporterState
  networkCalls : Nat
  downloadInvoked : Bool

/-- stats.projects_exported += 1 (lines 239 and 284). -/
def recordExported (st : ExporterState) : ExporterState :=
  { st with stats := { st.stats with projects_exported := st.stats.projects_exported + 1 } }

/-- stats.projects_failed += 1 followed by failed_projects.append
(the paired statements at lines 252 to 253, 260 to 261, 293 to 294,
301 to 302, 309 to 310). -/
def recordFailed (project : Project) (st : ExporterState) : ExporterState :=
  { st with
      stats := { st.stats with projects_failed := st.stats.projects_failed + 1 },
      failed_projects := st.failed_projects ++ [project] }

/-- stats.projects_failed += 1 with no append: the download-failure
branch at line 286 increments the counter only. -/
def recordFailedNoAppend (st : ExporterState) : ExporterState :=
  { st with stats := { st.stats with projects_failed := st.stats.projects_failed + 1 } }

/-- export_project body (lines 224 to 313). The already-exported check
precedes every HTTP request. The trigger POST calls raise_for_status
(line 248), so any status at or above 400 (including 403 and 429)
raises and is handled by the catch-all except at line 307; the explicit
403 branch at line 250 and part of the not-in-[200, 202] branch are
therefore dead for such statuses. The poll loop runs for at most
max_attempts iterations; a finished status invokes download_export. -/
def export_project (env : ExportEnv) (project : Project) (st : ExporterState) :
    ExportResult :=
  if env.fileExists then
    { returnValue := true, outcome := .alreadyExported, state := recordExported st,
      networkCalls := 0, downloadInvoked := false }
  else
    match env.trigger with
    | none =>
      { returnValue := false, outcome := .excFailed, state := recordFailed project st,
        networkCalls := 1, downloadInvoked := false }
    | some s =>
      if 400 ≤ s then
        { returnValue := false, outcome := .excFailed, state := recordFailed project st,
          networkCalls := 1, downloadInvoked := false }
      else if s = 403 then
        { returnValue := false, outcome := .triggerFailed, state := recordFailed project st,
          networkCalls := 1, downloadInvoked := false }
      else if ¬(s = 200 ∨ s = 202) then
        { returnValue := false, outcome := .triggerFailed, state := recordFailed project st,
          networkCalls := 1, downloadInvoked := false }
      else
        let poll := pollLoop env.polls 0 max_attempts
        match poll.1 with
        | .finished =>
          if env.downloadOk then
            { returnValue := true, outcome := .done, state := recordExported st,
              networkCalls := 1 + poll.2 + 1, downloadInvoked := true }
          else
            { returnValue := false, outcome := .downloadFailed,
              state := recordFailedNoAppend st,
              networkCalls := 1 + poll.2 + 1, downloadInvoked := true }
        | .pollFailed =>
          { returnValue := false, outcome := .exportFailed, state := recordFailed project st,
            networkCalls := 1 + poll.2, downloadInvoked := false }
        | .timedOut =>
          { returnValue := false, outcome := .timedOut, state := recordFailed project st,
            networkCalls := 1 + poll.2, downloadInvoked := false }

/-- A batch of export jobs: asyncio.gather over export_project tasks
(lines 714 to 719); each task performs exactly one terminal update to
the shared state, so the batch is modelled as a fold. -/
def runBatch (jobs : List (ExportEnv × Project)) (st : ExporterState) : ExporterState :=
  jobs.foldl (fun s job => (export_project job.1 job.2 s).state) st

/-- Open mode of the local target file in download_export: wb or ab. -/
inductive FileMode where
  | write
  | append
deriving DecidableEq, Repr

/-- The request parameters download_export derives from the local file
state (lines 321 to 328): if the file exists, a Range header starting
at its current size and append mode; otherwise no Range header and
overwrite mode. localFile is none when the file does not exist, some
content when it exists with those bytes. -/
structure DownloadRequest where
  rangeStart : Option Nat
  fileMode : FileMode
deriving DecidableEq, Repr

/-- Lines 321 to 328 of download_export. -/
def downloadRequest (localFile : Option (List Nat)) : DownloadRequest :=
  match localFile with
  | some content => { rangeStart := some content.length, fileMode := .append }
  | none => { rangeStart := none, fileMode := .write }

/-- A range-honoring remote: a request with Range starting at s is
answered with status 206 and the bytes of the complete content from
offset s; a request without Range gets status 200 and the whole
content. -/
def serveRange (full : List Nat) : Option Nat → Nat × List Nat
  | some s => (206, full.drop s)
  | none => (200, full)

/-- Writing the response body to the local file (lines 346 to 348):
append mode keeps the existing bytes, overwrite mode replaces them. -/
def writeChunks (mode : FileMode) (existing : List Nat) (body : List Nat) : List Nat :=
  match mode with
  | .append => existing ++ body
  | .write => body

/-- download_export body (lines 316 to 361): derive the request from
the local file, check the response status (raise_for_status at line 334
raises at or above 400 and the catch-all at line 359 returns False, so
the explicit 403 branch is dead; non-200/206 below 400 returns False),
then stream the body to the file. Returns the resulting file content,
or none when the download failed. resp is the remote response as a
status and body pair. -/
def download_export (localFile : Option (List Nat)) (resp : Nat × List Nat) :
    Option (List Nat) :=
  let req := downloadRequest localFile
  if 400 ≤ resp.1 then none
  else if resp.1 = 403 then none
  else if ¬(resp.1 = 200 ∨ resp.1 = 206) then none
  else some (writeChunks req.fileMode (localFile.getD []) resp.2)

/-- Modelled from the spec sentence for the resumable download: resume
with a byte-range request and append mode only when the existing file
has more than 0 bytes; otherwise request from byte 0 with no range
header in overwrite/create mode. Used solely to compare the spec
reading against downloadRequest. -/
def downloadRequestSpec (localFile : Option (List Nat)) : DownloadRequest :=
  match localFile with
  | some content =>
    if 0 < content.length then { rangeStart := some content.length, fileMode := .append }
    else { rangeStart := none, fileMode := .write }
  | none => { rangeStart := none, fileMode := .write }

/-- One page response of the projects listing endpoint (lines 193 to
214): HTTP status, the JSON item list, and the x-next-page header when
present and nonempty. -/
structure PageResponse where
  status : Nat
  items : List Nat
  nextPage : Option Nat
deriving DecidableEq, Repr

/-- get_all_projects loop (lines 179 to 221) over the successive
responses the remote yields. A non-200 page stops the loop (line 199)
before anything from that page is accumulated; an empty item list stops
the loop (line 202); otherwise the items are accumulated (line 205) and
the loop continues only when the x-next-page header is present (lines
211 to 214). -/
def get_all_projects : List PageResponse → List Nat
  | [] => []
  | r :: rest =>
    if r.status ≠ 200 then []
    else if r.items = [] then []
    else
      r.items ++ (match r.nextPage with
        | some _ => get_all_projects rest
        | none => [])

/-- A non-final page in the pagination chain: served with status 200, a
nonempty item list, and a next-page header. -/
def goodNonFinal (r : PageResponse) : Prop :=
  r.status = 200 ∧ r.items ≠ [] ∧ r.nextPage.isSome

/-- A final page: status 200 and either an empty item list or no
next-page header. -/
def finalPage (r : PageResponse) : Prop :=
  r.status = 200 ∧ (r.items = [] ∨ r.nextPage = none)

/-- Phase of one project job with respect to the download-class
semaphore: waiting to acquire, holding the slot with some workflow
steps left (the trigger, polls and download all run inside the
async-with at line 226), or finished after release. -/
inductive JobPhase where
  | waiting
  | holding (remaining : Nat)
  | finished
deriving DecidableEq, Repr

/-- Whether a job currently holds a download-class slot. -/
def isHolding : JobPhase → Bool
  | .holding _ => true
  | _ => false

/-- Number of jobs holding a slot. -/
def holdersCount (jobs : List JobPhase) : Nat :=
  jobs.countP isHolding

/-- Interleaving semantics of a batch of export_project tasks sharing
one asyncio.Semaphore of capacity C (created at line 710, entered at
line 226). acquire succeeds only while fewer than C jobs hold a slot;
work performs one workflow step of a job that holds its slot; release
happens only when the workflow is exhausted, since the whole
trigger-poll-download body sits inside the async-with block. -/
inductive SemStep (C : Nat) : List JobPhase → List JobPhase → Prop where
  | acquire (l₁ l₂ : List JobPhase) (k : Nat)
      (h : holdersCount (l₁ ++ JobPhase.waiting :: l₂) < C) :
      SemStep C (l₁ ++ JobPhase.waiting :: l₂) (l₁ ++ JobPhase.holding k :: l₂)
  | work (l₁ l₂ : List JobPhase) (n : Nat) :
      SemStep C (l₁ ++ JobPhase.holding (n + 1) :: l₂) (l₁ ++ JobPhase.holding n :: l₂)
  | release (l₁ l₂ : List JobPhase) :
      SemStep C (l₁ ++ JobPhase.holding 0 :: l₂) (l₁ ++ JobPhase.finished :: l₂)

/-- Initial batch state: M submitted jobs, none started. -/
def initJobs (M : Nat) : List JobPhase :=
  List.replicate M .waiting

/-- States reachable by interleaving the M jobs under capacity C. -/
def Reachable (C M : Nat) (s : List JobPhase) : Prop :=
  Relation.ReflTransGen (SemStep C) (initJobs M) s

/-- A name-binding event in a Python function body: a statement that
assigns a local name, or an expression that reads a name. -/
inductive PyStmt where
  | assign (name : String)
  | read (name : String)
deriving DecidableEq, Repr

/-- The local names of a Python function body: every name assigned
anywhere in the body (CPython decides locality statically from the
assignments in the function). -/
def pyLocals (body : List PyStmt) : List String :=
  body.filterMap fun s =>
    match s with
    | .assign n => some n
    | .read _ => none

/-- Execute a statement sequence under CPython local-variable
semantics: reading a name that is local to the function but not yet
assigned raises UnboundLocalError and stops execution. Returns the
name and index of the first such read, or the final index and assigned
names when no read is unbound. Reads of names that are not local
resolve globally and never raise. -/
def execStmts (locals : List String) : List PyStmt → Nat → List String →
    Sum (String × Nat) (Nat × List String)
  | [], i, assigned => .inr (i, assigned)
  | .assign n :: rest, i, assigned => execStmts locals rest (i + 1) (n :: assigned)
  | .read n :: rest, i, assigned =>
    if locals.contains n && !(assigned.contains n) then .inl (n, i)
    else execStmts locals rest (i + 1) assigned

/-- Statements of run_export before the per-instance loop (source lines
638 to 666): load config.json, prompt for the two concurrency limits,
write the config back, and enter the Progress context. -/
def setupStmts : List PyStmt :=
  [.assign "config_file", .assign "config", .read "config_file", .read "config_file",
   .assign "f", .read "f", .assign "config", .read "config",
   .assign "max_concurrent_downloads", .read "max_concurrent_downloads", .read "config",
   .read "config", .assign "max_concurrent_api_calls", .read "max_concurrent_api_calls",
   .read "config", .read "config_file", .assign "f", .read "config", .read "f",
   .assign "progress"]

/-- One loop iteration for an instance whose connection validation
fails (lines 668 to 682): bind the loop target, build the exporter from
the concurrency limits, attach the progress object, validate, print the
failure and continue. -/
def failedStmts : List PyStmt :=
  [.assign "instance", .read "instance", .read "max_concurrent_downloads",
   .read "max_concurrent_api_calls", .assign "exporter", .read "progress",
   .read "exporter", .read "exporter", .read "instance"]

/-- The loop iteration for the first instance whose validation succeeds
(lines 668 to 719): identical start, then copy the discovered instance
attributes (lines 685 to 686), create the fetch task (lines 689 to
692), call get_all_projects with api_semaphore and fetch_task (line
694), and continue through to the semaphore assignments (lines 710 to
711) and the export task list creation (lines 714 to 717). -/
def successStmts : List PyStmt :=
  [.assign "instance", .read "instance", .read "max_concurrent_downloads",
   .read "max_concurrent_api_calls", .assign "exporter", .read "progress",
   .read "exporter", .read "exporter", .read "exporter", .read "instance",
   .read "exporter", .read "instance", .read "progress", .read "instance",
   .assign "fetch_task", .read "exporter", .read "api_semaphore", .read "fetch_task",
   .assign "projects", .read "progress", .read "fetch_task", .read "projects",
   .read "instance", .read "projects", .read "progress", .read "instance",
   .read "projects", .assign "export_task", .read "exporter",
   .assign "download_semaphore", .read "exporter", .assign "api_semaphore",
   .read "exporter", .read "projects", .read "download_semaphore",
   .read "export_task", .assign "export_tasks", .read "export_tasks"]

/-- n failed-validation iterations in sequence. -/
def repeatFailed : Nat → List PyStmt
  | 0 => []
  | n + 1 => failedStmts ++ repeatFailed n

/-- The statement trace of one run_export call in which the first n
selected instances fail connection validation and the next one
succeeds. -/
def runExportTrace (n : Nat) : List PyStmt :=
  setupStmts ++ (repeatFailed n ++ successStmts)

/-- The local names of that run_export body. -/
def runExportLocals (n : Nat) : List String :=
  pyLocals (runExportTrace n)

/-- Index of the api_semaphore read at line 694 within the trace:
after the 20 setup statements and the 9 statements of each failed
iteration, at offset 16 of the success iteration. -/
def apiReadIdx (n : Nat) : Nat :=
  setupStmts.length + failedStmts.length * n + 16

/-- Run run_export under the CPython local-variable semantics. -/
def runExportExec (n : Nat) : Sum (String × Nat) (Nat × List String) :=
  execStmts (runExportLocals n) (runExportTrace n) 0 []

/-- Index of the export task list creation (line 714) within the
trace: offset 36 of the success iteration. -/
def exportTasksIdx (n : Nat) : Nat :=
  setupStmts.length + failedStmts.length * n + 36

/-- A poll response reporting a finished export. -/
def finishedPoll : PollResponse := { status := 200, export_status := "finished" }

/-- Sample project records for concrete runs. -/
def projectAlpha : Project := { id := 1, path_with_namespace := "group_alpha" }

def projectBeta : Project := { id := 2, path_with_namespace := "group_beta" }

/-- An environment whose trigger succeeds, whose first poll reports
finished, and whose download fails. -/
def envDownloadFail : ExportEnv :=
  { fileExists := false, trigger := some 202, polls := fun _ => finishedPoll,
    downloadOk := false }

/-- An environment whose trigger POST returns HTTP 503, so
raise_for_status raises inside the try block. -/
def envTrigger503 : ExportEnv :=
  { fileExists := false, trigger := some 503, polls := fun _ => finishedPoll,
    downloadOk := true }

/-- An environment whose trigger POST returns HTTP 429. -/
def envTrigger429 : ExportEnv :=
  { fileExists := false, trigger := some 429, polls := fun _ => finishedPoll,
    downloadOk := true }

/-- An environment whose target file already exists. -/
def envFileExists : ExportEnv :=
  { fileExists := true, trigger := some 202, polls := fun _ => finishedPoll,
    downloadOk := true }

/-- An environment that exports successfully end to end. -/
def envHappy : ExportEnv :=
  { fileExists := false, trigger := some 202, polls := fun _ => finishedPoll,
    downloadOk := true }

/-- Poll responses: 120 consecutive HTTP 503 responses, then a 200
response reporting a finished export. -/
def pollsLate : Nat → PollResponse :=
  fun n => if n < 120 then { status := 503, export_status := "" } else finishedPoll

/-- A two-page listing chain whose final page is nonempty and lacks the
next-page header. -/
def pagesTwo : List PageResponse :=
  [{ status := 200, items := [1], nextPage := some 2 },
   { status := 200, items := [2], nextPage := none }]

/-- A two-job batch: one already-exported project and one failing
download. -/
def jobsTwo : List (ExportEnv × Project) :=
  [(envFileExists, projectAlpha), (envDownloadFail, projectBeta)]

theorem retryGo_retriesIncr {α : Type} (b : ℚ) (j : Nat → ℚ) (o : Nat → AttemptOutcome α) :
    ∀ rem x, (retryGo b j o x rem).retriesIncr = (retryGo b j o x rem).delays.length := by
  intro rem
  induction rem with
  | zero => intro x; cases h : o x <;> simp [retryGo, h]
  | succ rem ih =>
    intro x
    cases h : o x with
    | success v => simp [retryGo, h]
    | httpError s =>
      by_cases hs : s = 429
      · simp [retryGo, h, hs, ih]
      · simp [retryGo, h, hs]

theorem retryGo_attempts {α : Type} (b : ℚ) (j : Nat → ℚ) (o : Nat → AttemptOutcome α) :
    ∀ rem x, (retryGo b j o x rem).attempts ≤ rem + 1 := by
  intro rem
  induction rem with
  | zero => intro x; cases h : o x <;> simp [retryGo, h]
  | succ rem ih =>
    intro x
    cases h : o x with
    | success v => simp [retryGo, h]
    | httpError s =>
      by_cases hs : s = 429
      · simp only [retryGo, h, hs, if_pos]
        have := ih (x + 1)
        omega
      · simp [retryGo, h, hs]

theorem retryGo_delays {α : Type} (b : ℚ) (j : Nat → ℚ) (o : Nat → AttemptOutcome α) :
    ∀ rem x k d, (retryGo b j o x rem).delays[k]? = some d →
      d = b * 2 ^ (x + k) + j (x + k) := by
  intro rem
  induction rem with
  | zero => intro x k d h; cases ho : o x <;> simp [retryGo, ho] at h
  | succ rem ih =>
    intro x k d h
    cases ho : o x with
    | success v => simp [retryGo, ho] at h
    | httpError s =>
      by_cases hs : s = 429
      · simp only [retryGo, ho, hs, if_pos] at h
        cases k with
        | zero => simp at h; simpa using h.symm
        | succ k =>
          have hk := ih (x + 1) k d (by simpa using h)
          rw [hk]
          have : x + 1 + k = x + (k + 1) := by omega
          rw [this]
      · simp [retryGo, ho, hs] at h

theorem retryGo_all429 {α : Type} (b : ℚ) (j : Nat → ℚ) (o : Nat → AttemptOutcome α)
    (h429 : ∀ n, o n = AttemptOutcome.httpError 429) :
    ∀ rem x, (retryGo b j o x rem).result = RetryResult.raised 429 ∧
      (retryGo b j o x rem).attempts = rem + 1 := by
  intro rem
  induction rem with
  | zero => intro x; simp [retryGo, h429 x]
  | succ rem ih =>
    intro x
    obtain ⟨h1, h2⟩ := ih (x + 1)
    simp [retryGo, h429 x, h1, h2]

/-- C2: async_retry_with_backoff invokes the wrapped operation at most
retries + 1 times; the retries counter is incremented once per retry
sleep; the delay before the k-th retry is base * 2 ^ k plus the k-th
jitter draw, hence between base * 2 ^ k (inclusive) and
base * 2 ^ k + 1 (exclusive) when the jitter is uniform in [0, 1); and
when every attempt observes HTTP 429 the wrapper re-issues the request
until the budget is spent and then surfaces the rate-limit error, after
exactly retries + 1 attempts. -/
theorem retry_backoff_contract {α : Type} (retries : Nat) (base : ℚ) (jitter : Nat → ℚ)
    (outcome : Nat → AttemptOutcome α)
    (hj : ∀ k, 0 ≤ jitter k ∧ jitter k < 1)
    (t : RetryTrace α) (ht : t = async_retry_with_backoff retries base jitter outcome) :
    t.attempts ≤ retries + 1 ∧
    t.retriesIncr = t.delays.length ∧
    (∀ k d, t.delays[k]? = some d →
      d = base * 2 ^ k + jitter k ∧ base * 2 ^ k ≤ d ∧ d < base * 2 ^ k + 1) ∧
    ((∀ n, outcome n = AttemptOutcome.httpError 429) →
      t.result = RetryResult.raised 429 ∧ t.attempts = retries + 1) := by
  subst ht
  refine ⟨retryGo_attempts base jitter outcome retries 0, retryGo_retriesIncr base jitter outcome retries 0, ?_, ?_⟩
  · intro k d hd
    have heq := retryGo_delays base jitter outcome retries 0 k d hd
    simp only [Nat.zero_add] at heq
    refine ⟨heq, ?_, ?_⟩
    · rw [heq]
      exact le_add_of_nonneg_right (hj k).1
    · rw [heq]
      exact add_lt_add_left (hj k).2 _
  · intro h429
    exact retryGo_all429 base jitter outcome h429 retries 0

/-- Witness for C2 at the source defaults retries = 5 and base = 1,
with every attempt rate limited: the 429 error is surfaced after
exactly 6 attempts. -/
theorem retry_backoff_contract_witness :
    (async_retry_with_backoff 5 1 (fun _ => (1 : ℚ) / 2)
      (fun _ => (AttemptOutcome.httpError 429 : AttemptOutcome Nat))).result
        = RetryResult.raised 429 ∧
    (async_retry_with_backoff 5 1 (fun _ => (1 : ℚ) / 2)
      (fun _ => (AttemptOutcome.httpError 429 : AttemptOutcome Nat))).attempts = 5 + 1 :=
  (retry_backoff_contract 5 1 (fun _ => (1 : ℚ) / 2)
    (fun _ => (AttemptOutcome.httpError 429 : AttemptOutcome Nat))
    (fun k => ⟨by norm_num, by norm_num⟩) _ rfl).2.2.2 (fun n => rfl)

/-- C1 helper: every run of export_project increments exactly one of the
two project counters. -/
theorem export_project_one_counter (env : ExportEnv) (project : Project)
    (st : ExporterState) :
    (export_project env project st).state.stats.projects_exported
      + (export_project env project st).state.stats.projects_failed
      = st.stats.projects_exported + st.stats.projects_failed + 1 := by
  unfold export_project
  by_cases hf : env.fileExists
  · simp [hf, recordExported]
    omega
  · simp only [hf, Bool.false_eq_true, if_false]
    cases env.trigger with
    | none => simp [recordFailed]; omega
    | some s =>
      by_cases h1 : 400 ≤ s
      · simp [h1, recordFailed]; omega
      · by_cases h2 : s = 403
        · simp [h1, h2, recordFailed]; omega
        · by_cases h3 : s = 200 ∨ s = 202
          · simp only [h1, h2, h3, if_false, if_neg, not_true, ite_not]
            cases hp : (pollLoop env.polls 0 max_attempts).1 with
            | finished =>
              by_cases hd : env.downloadOk
              · simp [hp, hd, h1, h2, h3, recordExported]; omega
              · simp [hp, hd, h1, h2, h3, recordFailedNoAppend]; omega
            | pollFailed => simp [hp, h1, h2, h3, recordFailed]; omega
            | timedOut => simp [hp, h1, h2, h3, recordFailed]; omega
          · simp [h1, h2, h3, recordFailed]; omega

/-- C1 amended: every terminal outcome other than DONE and
ALREADY_EXPORTED increments projects_failed by exactly one and leaves
projects_exported unchanged; every such outcome except a download
failure also appends the project to the failed-project list, while the
download-failure branch leaves the failed list untouched. The two
success outcomes increment projects_exported and leave the failure
records unchanged, so no terminal outcome leaves the counters
untouched. -/
theorem export_failure_accounting (env : ExportEnv) (project : Project)
    (st : ExporterState) (r : ExportResult) (hr : r = export_project env project st) :
    (r.outcome = ExportOutcome.done ∨ r.outcome = ExportOutcome.alreadyExported →
      r.state.stats.projects_exported = st.stats.projects_exported + 1 ∧
      r.state.stats.projects_failed = st.stats.projects_failed ∧
      r.state.failed_projects = st.failed_projects) ∧
    (r.outcome ≠ ExportOutcome.done → r.outcome ≠ ExportOutcome.alreadyExported →
      r.state.stats.projects_failed = st.stats.projects_failed + 1 ∧
      r.state.stats.projects_exported = st.stats.projects_exported ∧
      (r.outcome = ExportOutcome.downloadFailed →
        r.state.failed_projects = st.failed_projects) ∧
      (r.outcome ≠ ExportOutcome.downloadFailed →
        r.state.failed_projects = st.failed_projects ++ [project])) := by
  subst hr
  unfold export_project
  by_cases hf : env.fileExists
  · simp [hf, recordExported]
  · simp only [hf, Bool.false_eq_true, if_false]
    cases env.trigger with
    | none => simp [recordFailed]
    | some s =>
      by_cases h1 : 400 ≤ s
      · simp [h1, recordFailed]
      · by_cases h2 : s = 403
        · simp [h1, h2, recordFailed]
        · by_cases h3 : s = 200 ∨ s = 202
          · simp only [h1, h2, h3, if_false, if_neg, not_true, ite_not]
            cases hp : (pollLoop env.polls 0 max_attempts).1 with
            | finished =>
              by_cases hd : env.downloadOk
              · simp [hp, hd, h1, h2, h3, recordExported]
              · simp [hp, hd, h1, h2, h3, recordFailedNoAppend]
            | pollFailed => simp [hp, h1, h2, h3, recordFailed]
            | timedOut => simp [hp, h1, h2, h3, recordFailed]
          · simp [h1, h2, h3, recordFailed]

/-- C1 counterexample: with a successful trigger, a finished poll and a
failing download, export_project reaches the download-failure terminal
outcome, increments projects_failed, yet appends nothing to the
failed-project list — refuting the claim that every non-success
terminal outcome appends the project to that list. -/
theorem download_failure_not_appended :
    (export_project envDownloadFail projectBeta initialState).outcome
      = ExportOutcome.downloadFailed ∧
    (export_project envDownloadFail projectBeta initialState).state.stats.projects_failed
      = 1 ∧
    (export_project envDownloadFail projectBeta initialState).state.failed_projects
      = [] := by
  refine ⟨?_, ?_, ?_⟩ <;> rfl

/-- Witness for C1 at a concrete failing trigger: the 503 response
raises, and the exception branch both increments projects_failed and
appends the project. -/
theorem export_failure_accounting_witness :
    (export_project envTrigger503 projectAlpha initialState).state.stats.projects_failed = 1 ∧
    (export_project envTrigger503 projectAlpha initialState).state.failed_projects
      = [projectAlpha] := by
  have h := (export_failure_accounting envTrigger503 projectAlpha initialState _ rfl).2
    (by decide) (by decide)
  exact ⟨h.1, h.2.2.2 (by decide)⟩

/-- C3 helper: a window of polls that all stay non-terminal runs the
loop to exhaustion, consuming one budgeted iteration per poll,
including the non-200 ones. -/
theorem pollLoop_nonterminal_window (polls : Nat → PollResponse) :
    ∀ remaining attempt, (∀ k, k < remaining → nonTerminalPoll (polls (attempt + k))) →
      pollLoop polls attempt remaining = (PollResult.timedOut, remaining) := by
  intro remaining
  induction remaining with
  | zero => intro attempt _; rfl
  | succ rem ih =>
    intro attempt h
    have h0 := h 0 (by omega)
    have hrest : ∀ k, k < rem → nonTerminalPoll (polls (attempt + 1 + k)) := by
      intro k hk
      have := h (k + 1) (by omega)
      simpa [Nat.add_assoc, Nat.add_comm 1 k] using this
    have hr := ih (attempt + 1) hrest
    simp only [nonTerminalPoll, Nat.add_zero] at h0
    rcases h0 with hs | ⟨hnf, hnl⟩
    · simp [pollLoop, hs, hr]
    · by_cases hs : (polls attempt).status = 200
      · simp [pollLoop, hs, hnf, hnl, hr]
      · simp [pollLoop, hs, hr]

/-- C3 amended: each iteration of the poll loop issues one GET and
consumes one of the 120 budgeted attempts regardless of the response: a
non-200 response is skipped (no state change) but still uses up an
attempt, a 200 response with export_status finished terminates in the
download state, failed terminates in the failed state, any other value
keeps polling, and a full window of non-terminal polls — including the
non-200 ones — ends in the timed-out terminal state after exactly
max_attempts = 120 iterations. -/
theorem poll_loop_transitions (polls : Nat → PollResponse) :
    (∀ attempt, pollLoop polls attempt 0 = (PollResult.timedOut, 0)) ∧
    (∀ attempt remaining, (polls attempt).status ≠ 200 →
      pollLoop polls attempt (remaining + 1)
        = ((pollLoop polls (attempt + 1) remaining).1,
           (pollLoop polls (attempt + 1) remaining).2 + 1)) ∧
    (∀ attempt remaining, (polls attempt).status = 200 →
      (polls attempt).export_status = "finished" →
      pollLoop polls attempt (remaining + 1) = (PollResult.finished, 1)) ∧
    (∀ attempt remaining, (polls attempt).status = 200 →
      (polls attempt).export_status = "failed" →
      pollLoop polls attempt (remaining + 1) = (PollResult.pollFailed, 1)) ∧
    (∀ attempt remaining, (polls attempt).status = 200 →
      (polls attempt).export_status ≠ "finished" →
      (polls attempt).export_status ≠ "failed" →
      pollLoop polls attempt (remaining + 1)
        = ((pollLoop polls (attempt + 1) remaining).1,
           (pollLoop polls (attempt + 1) remaining).2 + 1)) ∧
    ((∀ k, k < max_attempts → nonTerminalPoll (polls k)) →
      pollLoop polls 0 max_attempts = (PollResult.timedOut, max_attempts)) := by
  refine ⟨?_, ?_, ?_, ?_, ?_, ?_⟩
  · intro attempt; rfl
  · intro attempt remaining hs
    simp [pollLoop, hs]
  · intro attempt remaining hs hf
    simp [pollLoop, hs, hf]
  · intro attempt remaining hs hf
    by_cases hnf : (polls attempt).export_status = "finished"
    · rw [hnf] at hf; simp at hf
    · simp [pollLoop, hs, hnf, hf]
  · intro attempt remaining hs hnf hnl
    simp [pollLoop, hs, hnf, hnl]
  · intro h
    exact pollLoop_nonterminal_window polls max_attempts 0
      (fun k hk => by simpa using h k hk)

/-- C3 counterexample: 120 consecutive 503 poll responses followed by a
finished report. Every one of the 120 iterations was a non-200 poll,
yet the loop times out without ever seeing the finished response —
refuting the claim that non-200 polls consume none of the attempt
budget. Under the claim's reading, modelled by pollLoopNoBudget, the
same responses end in the finished state. -/
theorem poll_non200_consumes_budget :
    (pollLoop pollsLate 0 max_attempts).1 = PollResult.timedOut ∧
    (∀ k, k < 120 → (pollsLate k).status ≠ 200) ∧
    (pollsLate 120).status = 200 ∧
    (pollsLate 120).export_status = "finished" ∧
    pollLoopNoBudget pollsLate 0 120 300 = PollResult.finished := by
  refine ⟨by decide, by decide, by decide, by decide, by decide⟩

/-- Witness for C3 at a single immediately-finished poll. -/
theorem poll_loop_transitions_witness :
    pollLoop (fun _ => finishedPoll) 0 (119 + 1) = (PollResult.finished, 1) :=
  (poll_loop_transitions (fun _ => finishedPoll)).2.2.1 0 119 rfl rfl

/-- C5: when the target output file already exists, export_project
returns success through the already-exported short circuit before any
HTTP request: zero network calls, download_export never invoked (so the
existing file is untouched), the project counted as exported, and the
failure records unchanged. -/
theorem already_exported_short_circuit (env : ExportEnv) (project : Project)
    (st : ExporterState) (h : env.fileExists = true) :
    (export_project env project st).returnValue = true ∧
    (export_project env project st).outcome = ExportOutcome.alreadyExported ∧
    (export_project env project st).networkCalls = 0 ∧
    (export_project env project st).downloadInvoked = false ∧
    (export_project env project st).state.stats.projects_exported
      = st.stats.projects_exported + 1 ∧
    (export_project env project st).state.stats.projects_failed
      = st.stats.projects_failed ∧
    (export_project env project st).state.failed_projects = st.failed_projects := by
  simp [export_project, h, recordExported]

/-- Witness for C5: a run against an existing file makes no network
call and reports the already-exported success. -/
theorem already_exported_short_circuit_witness :
    (export_project envFileExists projectAlpha initialState).networkCalls = 0 ∧
    (export_project envFileExists projectAlpha initialState).outcome
      = ExportOutcome.alreadyExported :=
  ⟨(already_exported_short_circuit envFileExists projectAlpha initialState rfl).2.2.1,
   (already_exported_short_circuit envFileExists projectAlpha initialState rfl).2.1⟩

/-- C6 helper: a batch fold adds exactly its length to the sum of the
two project counters. -/
theorem runBatch_counter_sum (jobs : List (ExportEnv × Project)) :
    ∀ st : ExporterState,
      (runBatch jobs st).stats.projects_exported + (runBatch jobs st).stats.projects_failed
        = st.stats.projects_exported + st.stats.projects_failed + jobs.length := by
  induction jobs with
  | nil => intro st; simp [runBatch]
  | cons job rest ih =>
    intro st
    have hstep := export_project_one_counter job.1 job.2 st
    have := ih (export_project job.1 job.2 st).state
    simp only [runBatch, List.foldl_cons, List.length_cons] at this ⊢
    omega

/-- C6: after a batch of N jobs starting from the zeroed stats,
projects_exported plus projects_failed equals N; the success_rate
accessor equals exported / (exported + failed) * 100 whenever the total
is positive and equals 0 when both counters are 0. -/
theorem batch_accounting (jobs : List (ExportEnv × Project))
    (f : ExporterState) (hf : f = runBatch jobs initialState) :
    f.stats.projects_exported + f.stats.projects_failed = jobs.length ∧
    (0 < f.stats.projects_exported + f.stats.projects_failed →
      f.stats.success_rate
        = (f.stats.projects_exported : ℚ)
            / ((f.stats.projects_exported + f.stats.projects_failed : Nat) : ℚ) * 100) ∧
    (f.stats.projects_exported = 0 ∧ f.stats.projects_failed = 0 →
      f.stats.success_rate = 0) := by
  subst hf
  refine ⟨?_, ?_, ?_⟩
  · simpa [initialState] using runBatch_counter_sum jobs initialState
  · intro hpos
    simp [ExportStats.success_rate, hpos]
  · rintro ⟨h1, h2⟩
    simp [ExportStats.success_rate, h1, h2]

/-- Witness for C6 on a concrete two-job batch with one success and one
failure: the counters sum to the batch size. -/
theorem batch_accounting_witness :
    (runBatch jobsTwo initialState).stats.projects_exported
      + (runBatch jobsTwo initialState).stats.projects_failed = 2 :=
  (batch_accounting jobsTwo _ rfl).1

/-- C4 amended: whenever the target file exists — including with 0
bytes — the download request carries a Range header starting exactly at
the current size S and the file is opened in append mode; only a
missing file is requested without a Range header in overwrite mode.
Against a range-honoring remote, when the S existing bytes are a true
partial copy of the complete T-byte content with T > S, the resumed
download yields exactly the complete content: T bytes, nothing
duplicated, nothing missing. A fresh download of a missing file also
yields the complete content. -/
theorem download_resume_exact (content full : List Nat)
    (hpre : full.take content.length = content)
    (_hlt : content.length < full.length) :
    (downloadRequest (some content)).rangeStart = some content.length ∧
    (downloadRequest (some content)).fileMode = FileMode.append ∧
    download_export (some content) (serveRange full (some content.length)) = some full ∧
    (downloadRequest none).rangeStart = none ∧
    (downloadRequest none).fileMode = FileMode.write ∧
    download_export none (serveRange full none) = some full ∧
    (downloadRequest (some ([] : List Nat))).rangeStart = some 0 ∧
    (downloadRequest (some ([] : List Nat))).fileMode = FileMode.append ∧
    download_export (some ([] : List Nat)) (serveRange full (some 0)) = some full := by
  refine ⟨rfl, rfl, ?_, rfl, rfl, ?_, rfl, rfl, ?_⟩
  · simp only [serveRange, download_export, downloadRequest, writeChunks]
    norm_num
    conv_rhs => rw [← List.take_append_drop content.length full]
    rw [hpre]
  · simp [serveRange, download_export, downloadRequest, writeChunks]
  · simp [serveRange, download_export, downloadRequest, writeChunks]

/-- C4 counterexample: a target file that exists with S = 0 bytes falls
under the claim's otherwise-branch, which requires overwrite/create
mode with no resumption, yet the code opens it in append mode and sends
a Range header at byte 0 — the claim's mode prediction, rendered by
downloadRequestSpec, differs from the code. -/
theorem empty_file_resume_mode :
    (downloadRequest (some ([] : List Nat))).fileMode = FileMode.append ∧
    (downloadRequestSpec (some ([] : List Nat))).fileMode = FileMode.write ∧
    downloadRequest (some ([] : List Nat)) ≠ downloadRequestSpec (some ([] : List Nat)) := by
  refine ⟨rfl, rfl, by decide⟩

/-- Witness for C4: resuming a 1-byte partial copy of a 2-byte content
yields exactly the 2-byte content. -/
theorem download_resume_exact_witness :
    download_export (some [7]) (serveRange [7, 8] (some 1)) = some [7, 8] :=
  (download_resume_exact [7] [7, 8] (by decide) (by decide)).2.2.1

/-- C7 amended: on a chain whose non-final pages are served with status
200, nonempty items and a next-page header, and whose final page has
status 200 and is empty or lacks the header, the fetcher terminates
with the in-order concatenation of the items of every page it received
— a nonempty final page without a next-page header is accumulated too,
and an empty final page contributes nothing, so the result length is
the sum of all served page sizes. A non-200 page stops pagination and
the fetcher returns exactly what the earlier pages accumulated. -/
theorem pagination_accumulates_all :
    (∀ (pre : List PageResponse) (last : PageResponse),
      (∀ r ∈ pre, goodNonFinal r) → finalPage last →
      get_all_projects (pre ++ [last])
        = ((pre ++ [last]).map (fun r => r.items)).flatten) ∧
    (∀ (pre rest : List PageResponse) (bad : PageResponse),
      (∀ r ∈ pre, goodNonFinal r) → bad.status ≠ 200 →
      get_all_projects (pre ++ bad :: rest)
        = (pre.map (fun r => r.items)).flatten) := by
  constructor
  · intro pre
    induction pre with
    | nil =>
      intro last _ hlast
      obtain ⟨hs, hrest⟩ := hlast
      rcases hrest with hempty | hnone
      · simp [get_all_projects, hs, hempty]
      · by_cases hempty : last.items = []
        · simp [get_all_projects, hs, hempty]
        · simp [get_all_projects, hs, hempty, hnone]
    | cons r pre ih =>
      intro last hpre hlast
      obtain ⟨hs, hne, hnext⟩ := hpre r (by simp)
      obtain ⟨v, hv⟩ := Option.isSome_iff_exists.mp hnext
      have hrec := ih last (fun q hq => hpre q (by simp [hq])) hlast
      simp [get_all_projects, hs, hne, hv, hrec]
  · intro pre
    induction pre with
    | nil =>
      intro rest bad _ hbad
      simp [get_all_projects, hbad]
    | cons r pre ih =>
      intro rest bad hpre hbad
      obtain ⟨hs, hne, hnext⟩ := hpre r (by simp)
      obtain ⟨v, hv⟩ := Option.isSome_iff_exists.mp hnext
      have hrec := ih rest bad (fun q hq => hpre q (by simp [hq])) hbad
      simp [get_all_projects, hs, hne, hv, hrec]

/-- C7 counterexample: a chain of one non-final page with item 1 and a
nonempty final page with item 2 and no next-page header. The fetcher
accumulates both pages, so its result is not the concatenation of the
non-final pages' items and its length is 2, not the sum 1 of the
non-final page sizes. -/
theorem final_page_items_accumulated :
    get_all_projects pagesTwo = [1, 2] ∧
    (pagesTwo.dropLast.map (fun r => r.items)).flatten = [1] ∧
    get_all_projects pagesTwo ≠ (pagesTwo.dropLast.map (fun r => r.items)).flatten := by
  refine ⟨rfl, rfl, by decide⟩

/-- Witness for C7: one full page then an empty final page accumulate
exactly the full page's items. -/
theorem pagination_accumulates_all_witness :
    get_all_projects
      [{ status := 200, items := [5], nextPage := some 2 },
       { status := 200, items := [], nextPage := none }] = [5] := by
  have h := pagination_accumulates_all.1
    [{ status := 200, items := [5], nextPage := some 2 }]
    { status := 200, items := [], nextPage := none }
    (by intro r hr; simp at hr; subst hr; exact ⟨rfl, by decide, rfl⟩)
    ⟨rfl, Or.inl rfl⟩
  simpa using h

/-- C8 amended: async_retry_with_backoff does decorate export_project
and download_export, but both bodies catch every exception internally
(the catch-alls at lines 307 and 359), so the wrapped callable always
returns normally and the wrapper finishes after exactly one attempt
with no sleep and no retry-counter increment, whatever the HTTP traffic
inside was; and get_all_projects is not decorated at all — a 429 page
response is an ordinary non-200 and simply stops pagination. An HTTP
429 on the trigger, poll, download or page fetch therefore never leads
to backoff and re-issue. -/
theorem retry_wrapper_not_engaged (retries : Nat) (base : ℚ) (jitter : Nat → ℚ)
    (env : ExportEnv) (project : Project) (st : ExporterState) :
    (async_retry_with_backoff retries base jitter
      (fun _ => AttemptOutcome.success (export_project env project st))).attempts = 1 ∧
    (async_retry_with_backoff retries base jitter
      (fun _ => AttemptOutcome.success (export_project env project st))).retriesIncr = 0 ∧
    (async_retry_with_backoff retries base jitter
      (fun _ => AttemptOutcome.success (export_project env project st))).delays = [] ∧
    (async_retry_with_backoff retries base jitter
      (fun _ => AttemptOutcome.success (export_project env project st))).result
        = RetryResult.ok (export_project env project st) ∧
    (∀ (r : PageResponse) (rest : List PageResponse), r.status = 429 →
      get_all_projects (r :: rest) = []) := by
  refine ⟨?_, ?_, ?_, ?_, ?_⟩
  · cases retries <;> rfl
  · cases retries <;> rfl
  · cases retries <;> rfl
  · cases retries <;> rfl
  · intro r rest hr
    have : r.status ≠ 200 := by omega
    simp [get_all_projects, this]

/-- C8 counterexample: a project whose trigger POST returns HTTP 429.
The raised 429 is swallowed by the catch-all inside export_project, so
the decorated call makes exactly one attempt, sleeps never, increments
the retry counter zero times, and marks the project failed — refuting
the claim that a 429 at a wrapped call site leads to backoff and
re-issue of the request. -/
theorem trigger_429_fails_without_retry :
    (async_retry_with_backoff 5 1 (fun _ => (1 : ℚ) / 2)
      (fun _ => AttemptOutcome.success
        (export_project envTrigger429 projectAlpha initialState))).attempts = 1 ∧
    (async_retry_with_backoff 5 1 (fun _ => (1 : ℚ) / 2)
      (fun _ => AttemptOutcome.success
        (export_project envTrigger429 projectAlpha initialState))).retriesIncr = 0 ∧
    (async_retry_with_backoff 5 1 (fun _ => (1 : ℚ) / 2)
      (fun _ => AttemptOutcome.success
        (export_project envTrigger429 projectAlpha initialState))).delays = [] ∧
    (export_project envTrigger429 projectAlpha initialState).outcome
      = ExportOutcome.excFailed ∧
    (export_project envTrigger429 projectAlpha initialState).returnValue = false ∧
    (export_project envTrigger429 projectAlpha initialState).state.stats.projects_failed
      = 1 := by
  exact ⟨rfl, rfl, rfl, rfl, rfl, rfl⟩

/-- Witness for C8 on concrete inputs: one attempt, no retries, the
plain export result surfaced. -/
theorem retry_wrapper_not_engaged_witness :
    (async_retry_with_backoff 5 1 (fun _ => (1 : ℚ) / 2)
      (fun _ => AttemptOutcome.success
        (export_project envHappy projectAlpha initialState))).attempts = 1 ∧
    get_all_projects [{ status := 429, items := [3], nextPage := some 2 }] = [] :=
  ⟨(retry_wrapper_not_engaged 5 1 (fun _ => (1 : ℚ) / 2) envHappy projectAlpha
      initialState).1,
   (retry_wrapper_not_engaged 5 1 (fun _ => (1 : ℚ) / 2) envHappy projectAlpha
      initialState).2.2.2.2 { status := 429, items := [3], nextPage := some 2 } [] rfl⟩

/-- C9 helper: slot count of a list split around one job. -/
theorem holdersCount_split (l₁ l₂ : List JobPhase) (x : JobPhase) :
    holdersCount (l₁ ++ x :: l₂)
      = holdersCount l₁ + (if isHolding x then 1 else 0) + holdersCount l₂ := by
  simp [holdersCount, List.countP_append, List.countP_cons]
  omega

/-- C9 helper: no interleaving step raises the slot count above C. -/
theorem semStep_preserves_bound {C : Nat} {s t : List JobPhase}
    (h : SemStep C s t) (hs : holdersCount s ≤ C) : holdersCount t ≤ C := by
  cases h with
  | acquire l₁ l₂ k hcap =>
    have h1 := holdersCount_split l₁ l₂ JobPhase.waiting
    have h2 := holdersCount_split l₁ l₂ (JobPhase.holding k)
    simp [isHolding] at h1 h2
    omega
  | work l₁ l₂ n =>
    have h1 := holdersCount_split l₁ l₂ (JobPhase.holding (n + 1))
    have h2 := holdersCount_split l₁ l₂ (JobPhase.holding n)
    simp [isHolding] at h1 h2
    omega
  | release l₁ l₂ =>
    have h1 := holdersCount_split l₁ l₂ (JobPhase.holding 0)
    have h2 := holdersCount_split l₁ l₂ JobPhase.finished
    simp [isHolding] at h1 h2
    omega

/-- C9 helper: initially no job holds a slot. -/
theorem holdersCount_initJobs (M : Nat) : holdersCount (initJobs M) = 0 := by
  induction M with
  | zero => rfl
  | succ M ih =>
    simp [initJobs, List.replicate, holdersCount, List.countP_cons, isHolding] at ih ⊢

/-- C9: in every state reachable by interleaving a batch of M project
jobs that share one download-class semaphore of capacity C, at most C
jobs hold a slot at any point; and every step either admits a waiting
job while capacity remains, performs one workflow step of a job that
keeps holding its slot, or releases a job only once its whole
trigger-poll-download workflow is exhausted — a job in mid-workflow
never gives up its slot, mirroring that the entire export_project body
runs inside the async-with on the semaphore. -/
theorem download_slots_bounded (C M : Nat) :
    (∀ s, Reachable C M s → holdersCount s ≤ C) ∧
    (∀ s t, SemStep C s t →
      ∃ l₁ l₂ x y, s = l₁ ++ x :: l₂ ∧ t = l₁ ++ y :: l₂ ∧
        ((x = JobPhase.waiting ∧ ∃ k, y = JobPhase.holding k) ∨
         (∃ n, x = JobPhase.holding (n + 1) ∧ y = JobPhase.holding n) ∨
         (x = JobPhase.holding 0 ∧ y = JobPhase.finished))) := by
  constructor
  · intro s hs
    induction hs with
    | refl => simp [holdersCount_initJobs]
    | tail _ hstep ih => exact semStep_preserves_bound hstep ih
  · intro s t h
    cases h with
    | acquire l₁ l₂ k hcap =>
      exact ⟨l₁, l₂, _, _, rfl, rfl, Or.inl ⟨rfl, k, rfl⟩⟩
    | work l₁ l₂ n =>
      exact ⟨l₁, l₂, _, _, rfl, rfl, Or.inr (Or.inl ⟨n, rfl, rfl⟩)⟩
    | release l₁ l₂ =>
      exact ⟨l₁, l₂, _, _, rfl, rfl, Or.inr (Or.inr ⟨rfl, rfl⟩)⟩

/-- Witness for C9: with capacity 1 and two jobs, the state after one
acquire is reachable and its slot count respects the bound. -/
theorem download_slots_bounded_witness :
    holdersCount [JobPhase.holding 3, JobPhase.waiting] ≤ 1 :=
  (download_slots_bounded 1 2).1 [JobPhase.holding 3, JobPhase.waiting]
    (Relation.ReflTransGen.single
      (SemStep.acquire [] [JobPhase.waiting] 3 (by decide)))

/-- C10 helper: an error found in a leading statement block is the
result for the whole sequence. -/
theorem execStmts_append_inl (L : List String) (e : String × Nat) :
    ∀ (xs ys : List PyStmt) (i : Nat) (a : List String),
      execStmts L xs i a = Sum.inl e →
      execStmts L (xs ++ ys) i a = Sum.inl e := by
  intro xs
  induction xs with
  | nil => intro ys i a h; simp [execStmts] at h
  | cons stmt rest ih =>
    intro ys i a h
    cases stmt with
    | assign m =>
      rw [List.cons_append]
      rw [show execStmts L (PyStmt.assign m :: rest) i a
            = execStmts L rest (i + 1) (m :: a) from rfl] at h
      rw [show execStmts L (PyStmt.assign m :: (rest ++ ys)) i a
            = execStmts L (rest ++ ys) (i + 1) (m :: a) from rfl]
      exact ih ys (i + 1) (m :: a) h
    | read m =>
      rw [List.cons_append]
      rw [show execStmts L (PyStmt.read m :: rest) i a
            = if L.contains m && !(a.contains m) then Sum.inl (m, i)
              else execStmts L rest (i + 1) a from rfl] at h
      rw [show execStmts L (PyStmt.read m :: (rest ++ ys)) i a
            = if L.contains m && !(a.contains m) then Sum.inl (m, i)
              else execStmts L (rest ++ ys) (i + 1) a from rfl]
      by_cases hc : (L.contains m && !(a.contains m)) = true
      · rw [if_pos hc] at h
        rw [if_pos hc]
        exact h
      · rw [if_neg hc] at h
        rw [if_neg hc]
        exact ih ys (i + 1) a h

/-- C10 helper: a leading statement block that runs clean hands its
final index and assigned names to the remaining statements. -/
theorem execStmts_append_inr (L : List String) (j : Nat) (b : List String) :
    ∀ (xs ys : List PyStmt) (i : Nat) (a : List String),
      execStmts L xs i a = Sum.inr (j, b) →
      execStmts L (xs ++ ys) i a = execStmts L ys j b := by
  intro xs
  induction xs with
  | nil =>
    intro ys i a h
    simp only [execStmts, Sum.inr.injEq, Prod.mk.injEq] at h
    simp [h.1, h.2]
  | cons stmt rest ih =>
    intro ys i a h
    cases stmt with
    | assign m =>
      rw [List.cons_append]
      rw [show execStmts L (PyStmt.assign m :: rest) i a
            = execStmts L rest (i + 1) (m :: a) from rfl] at h
      rw [show execStmts L (PyStmt.assign m :: (rest ++ ys)) i a
            = execStmts L (rest ++ ys) (i + 1) (m :: a) from rfl]
      exact ih ys (i + 1) (m :: a) h
    | read m =>
      rw [List.cons_append]
      rw [show execStmts L (PyStmt.read m :: rest) i a
            = if L.contains m && !(a.contains m) then Sum.inl (m, i)
              else execStmts L rest (i + 1) a from rfl] at h
      rw [show execStmts L (PyStmt.read m :: (rest ++ ys)) i a
            = if L.contains m && !(a.contains m) then Sum.inl (m, i)
              else execStmts L (rest ++ ys) (i + 1) a from rfl]
      by_cases hc : (L.contains m && !(a.contains m)) = true
      · rw [if_pos hc] at h
        exact absurd h (by simp)
      · rw [if_neg hc] at h
        rw [if_neg hc]
        exact ih ys (i + 1) a h

/-- C10 helper: the setup block runs clean from any starting state,
because every name it reads has just been assigned, and it binds eight
local names. -/
theorem exec_setup (L : List String) (i : Nat) (a : List String) :
    execStmts L setupStmts i a
      = Sum.inr (i + 20,
          "progress" :: "f" :: "max_concurrent_api_calls" :: "max_concurrent_downloads"
            :: "config" :: "f" :: "config" :: "config_file" :: a) := by
  simp [setupStmts, execStmts]

/-- C10 helper: a failed-validation iteration runs clean whenever the
three outer names it reads are already assigned, and binds the loop
target and the exporter. -/
theorem exec_failed (L : List String) (i : Nat) (a : List String)
    (hmcd : "max_concurrent_downloads" ∈ a)
    (hmca : "max_concurrent_api_calls" ∈ a)
    (hprog : "progress" ∈ a) :
    execStmts L failedStmts i a = Sum.inr (i + 9, "exporter" :: "instance" :: a) := by
  simp [failedStmts, execStmts, hmcd, hmca, hprog]

/-- C10 helper: n failed-validation iterations run clean, advance the
index by 9 per iteration, and preserve the assigned-name facts the
blocks rely on. -/
theorem exec_repeatFailed (n : Nat) :
    ∀ (L : List String) (i : Nat) (a : List String),
      "max_concurrent_downloads" ∈ a →
      "max_concurrent_api_calls" ∈ a →
      "progress" ∈ a →
      "api_semaphore" ∉ a →
      ∃ b : List String,
        execStmts L (repeatFailed n) i a = Sum.inr (i + 9 * n, b) ∧
        "max_concurrent_downloads" ∈ b ∧
        "max_concurrent_api_calls" ∈ b ∧
        "progress" ∈ b ∧
        "api_semaphore" ∉ b := by
  induction n with
  | zero =>
    intro L i a h1 h2 h3 h4
    exact ⟨a, by simp [repeatFailed, execStmts], h1, h2, h3, h4⟩
  | succ n ih =>
    intro L i a h1 h2 h3 h4
    have hstep := exec_failed L i a h1 h2 h3
    have hrec := ih L (i + 9) ("exporter" :: "instance" :: a)
      (by simp [h1]) (by simp [h2]) (by simp [h3]) (by simp [h4])
    obtain ⟨b, hb, p1, p2, p3, p4⟩ := hrec
    refine ⟨b, ?_, p1, p2, p3, p4⟩
    rw [show repeatFailed (n + 1) = failedStmts ++ repeatFailed n from rfl]
    rw [execStmts_append_inr L (i + 9) ("exporter" :: "instance" :: a) failedStmts
      (repeatFailed n) i a hstep, hb]
    congr 2
    omega

/-- C10 helper: the successful-validation iteration raises
UnboundLocalError on the api_semaphore read at its offset 16, because
api_semaphore is a local of the function and nothing has assigned it
yet. -/
theorem exec_success (L : List String) (i : Nat) (a : List String)
    (hmcd : "max_concurrent_downloads" ∈ a)
    (hmca : "max_concurrent_api_calls" ∈ a)
    (hprog : "progress" ∈ a)
    (hapi : "api_semaphore" ∉ a)
    (hL : "api_semaphore" ∈ L) :
    execStmts L successStmts i a = Sum.inl ("api_semaphore", i + 16) := by
  simp [successStmts, execStmts, hmcd, hmca, hprog, hapi, hL]

/-- C10 helper: each failed iteration contributes 9 statements. -/
theorem repeatFailed_length (n : Nat) : (repeatFailed n).length = 9 * n := by
  induction n with
  | zero => rfl
  | succ n ih =>
    rw [show repeatFailed (n + 1) = failedStmts ++ repeatFailed n from rfl]
    simp [failedStmts, ih]
    omega

/-- C10 helper: api_semaphore is a local name of run_export, because
line 711 assigns it somewhere in the body. -/
theorem api_semaphore_local (n : Nat) : "api_semaphore" ∈ runExportLocals n := by
  have h : "api_semaphore" ∈ pyLocals successStmts := by decide
  have hsplit : runExportLocals n
      = pyLocals setupStmts ++ (pyLocals (repeatFailed n) ++ pyLocals successStmts) := by
    simp [runExportLocals, runExportTrace, pyLocals, List.filterMap_append]
  rw [hsplit]
  exact List.mem_append.mpr (Or.inr (List.mem_append.mpr (Or.inr h)))

/-- C10: for every number n of instances whose validation fails before
the first successful one, run_export reads the local api_semaphore at
the project-list fetch (the statement at index apiReadIdx n, line 694)
before the assignment at line 711 has executed, so CPython raises
UnboundLocalError there; the export task list creation sits strictly
later in the trace (index exportTasksIdx n, line 714) and occurs in no
earlier block, so no per-project export job is ever created. -/
theorem run_export_unbound_local (n : Nat) :
    runExportExec n = Sum.inl ("api_semaphore", apiReadIdx n) ∧
    (runExportTrace n)[apiReadIdx n]? = some (PyStmt.read "api_semaphore") ∧
    (runExportTrace n)[exportTasksIdx n]? = some (PyStmt.assign "export_tasks") ∧
    apiReadIdx n < exportTasksIdx n ∧
    PyStmt.assign "export_tasks" ∉ setupStmts ∧
    PyStmt.assign "export_tasks" ∉ failedStmts := by
  have hsetlen : setupStmts.length = 20 := rfl
  have hfaillen : failedStmts.length = 9 := rfl
  have hreplen : (repeatFailed n).length = 9 * n := repeatFailed_length n
  have hapi : apiReadIdx n = 20 + 9 * n + 16 := by
    simp [apiReadIdx, hsetlen, hfaillen]
  have htasks : exportTasksIdx n = 20 + 9 * n + 36 := by
    simp [exportTasksIdx, hsetlen, hfaillen]
  refine ⟨?_, ?_, ?_, ?_, ?_, ?_⟩
  · unfold runExportExec runExportTrace
    have h1 := exec_setup (runExportLocals n) 0 []
    rw [execStmts_append_inr (runExportLocals n) (0 + 20) _ setupStmts
      (repeatFailed n ++ successStmts) 0 [] h1]
    obtain ⟨b, hb, p1, p2, p3, p4⟩ :=
      exec_repeatFailed n (runExportLocals n) (0 + 20)
        ("progress" :: "f" :: "max_concurrent_api_calls" :: "max_concurrent_downloads"
          :: "config" :: "f" :: "config" :: "config_file" :: [])
        (by decide) (by decide) (by decide) (by decide)
    rw [execStmts_append_inr (runExportLocals n) (0 + 20 + 9 * n) b (repeatFailed n)
      successStmts (0 + 20) _ hb]
    rw [exec_success (runExportLocals n) (0 + 20 + 9 * n) b p1 p2 p3 p4
      (api_semaphore_local n)]
    rw [hapi]
  · unfold runExportTrace
    rw [List.getElem?_append_right (by rw [hsetlen, hapi]; omega), hsetlen]
    rw [List.getElem?_append_right (by rw [hreplen, hapi]; omega), hreplen]
    rw [show apiReadIdx n - 20 - 9 * n = 16 from by rw [hapi]; omega]
    rfl
  · unfold runExportTrace
    rw [List.getElem?_append_right (by rw [hsetlen, htasks]; omega), hsetlen]
    rw [List.getElem?_append_right (by rw [hreplen, htasks]; omega), hreplen]
    rw [show exportTasksIdx n - 20 - 9 * n = 36 from by rw [htasks]; omega]
    rfl
  · rw [hapi, htasks]
    omega
  · decide
  · decide

/-- Witness for C10 at one preceding failed instance: the error index
is 45, right where the api_semaphore read sits. -/
theorem run_export_unbound_local_witness :
    runExportExec 1 = Sum.inl ("api_semaphore", 45) ∧
    (runExportTrace 1)[45]? = some (PyStmt.read "api_semaphore") :=
  ⟨(run_export_unbound_local 1).1, (run_export_unbound_local 1).2.1⟩

end Gitsport
